import Mathlib

/-!
Verification of the service-monitoring comparison engine of `src/bot.py`
(the `monitor_services` coroutine and its global state).

The embedding is shallow: one iteration of the `while True:` loop body,
after a successful fetch that yielded a tick identifier `CurrTick` and a
non-empty inner mapping `current_team_services`, is modelled as the pure
function `monitor_tick` acting on an explicit `BotState` (the Python
globals/locals `last_service_states`, `prev_deltas`, `last_tick`) and
returning the new state together with the list of Discord messages sent
during that iteration.  Python dicts are modelled as insertion-ordered
association lists with `dictGet` / `dictSet` mirroring `d.get` and
`d[k] = v`; Python floats are modelled as rationals; values that may be
`None` are `Option`s.
-/

set_option autoImplicit false

namespace Bot

/-- The `components` sub-dict of a fetched service entry; both keys may be
absent (`.get("attack", 0.0)` style defaults are applied at use sites). -/
structure Components where
  attack : Option ℚ
  defense : Option ℚ
  deriving Repr, DecidableEq

/-- One value of the fetched `current_team_services` dict:
`{checker: ..., components: {attack: ..., defense: ...}}`, with both the
`checker` key and the whole `components` key possibly absent. -/
structure ServiceInfo where
  checker : Option String
  components : Option Components
  deriving Repr, DecidableEq

/-- Models `service_info.get("components", {}).get("attack", 0.0)` (bot.py line 117). -/
def ServiceInfo.attackScore (si : ServiceInfo) : ℚ :=
  ((si.components.getD ⟨none, none⟩).attack).getD 0

/-- Models `service_info.get("components", {}).get("defense", 0.0)` (bot.py line 118). -/
def ServiceInfo.defenseScore (si : ServiceInfo) : ℚ :=
  ((si.components.getD ⟨none, none⟩).defense).getD 0

/-- A stored value of `last_service_states`:
`{"checker": ..., "attack": ..., "defense": ...}` (bot.py lines 169-173). -/
structure ServiceState where
  checker : Option String
  attack : ℚ
  defense : ℚ
  deriving Repr, DecidableEq

/-- A stored value of `prev_deltas`:
`{"attack_delta": ..., "defense_delta": ...}` (bot.py lines 158-161). -/
structure DeltaRecord where
  attack_delta : Option ℚ
  defense_delta : Option ℚ
  deriving Repr, DecidableEq

abbrev StateMap := List (String × ServiceState)
abbrev DeltaMap := List (String × DeltaRecord)
abbrev RawServices := List (String × ServiceInfo)

/-- The two tunable thresholds read from the environment at startup
(bot.py lines 31-32). -/
structure Config where
  drop_percentage_threshold : ℚ
  min_score_threshold : ℚ
  deriving Repr, DecidableEq

/-- The defaults `0.5` and `10.0` of
`ATK_DEF_DROP_PERCENTAGE_THRESHOLD` and `ATK_DEF_MIN_SCORE_THRESHOLD`. -/
def defaultConfig : Config := ⟨1 / 2, 10⟩

/-- The mutable state of the monitor across loop iterations:
the global `last_service_states` and the loop-locals `prev_deltas`,
`last_tick` (bot.py lines 42, 88, 89). -/
structure BotState where
  last_service_states : StateMap
  prev_deltas : DeltaMap
  last_tick : Option String
  deriving Repr, DecidableEq

/-- The state before the first loop iteration: empty dicts, `last_tick = None`. -/
def initialState : BotState := ⟨[], [], none⟩

/-- Python dict lookup `d.get(k, None)` on an insertion-ordered dict. -/
def dictGet {β : Type} : List (String × β) → String → Option β
  | [], _ => none
  | (k, v) :: rest, name => if k = name then some v else dictGet rest name

/-- Python dict assignment `d[k] = v`: overwrite in place if the key exists,
append at the end otherwise. -/
def dictSet {β : Type} : List (String × β) → String → β → List (String × β)
  | [], k, v => [(k, v)]
  | (k', v') :: rest, k, v =>
    if k' = k then (k, v) :: rest else (k', v') :: dictSet rest k v

/-- Models `current_attack_score - prev_attack_score if prev_attack_score is
not None else None` for one service of the current payload, with
`prev_attack_score = last_service_states.get(name, {}).get("attack", None)`
(bot.py lines 119, 121). -/
def service_attack_delta (ls : StateMap) (e : String × ServiceInfo) : Option ℚ :=
  (dictGet ls e.1).map (fun ps => e.2.attackScore - ps.attack)

/-- Defense analogue of `service_attack_delta` (bot.py lines 120, 122). -/
def service_defense_delta (ls : StateMap) (e : String × ServiceInfo) : Option ℚ :=
  (dictGet ls e.1).map (fun ps => e.2.defenseScore - ps.defense)

/-- Models `prev_deltas_snapshot.get(name, {}).get("attack_delta", None)`
(bot.py line 130). -/
def service_prev_attack_delta (snap : DeltaMap) (name : String) : Option ℚ :=
  (dictGet snap name).bind DeltaRecord.attack_delta

/-- Models `prev_deltas_snapshot.get(name, {}).get("defense_delta", None)`
(bot.py line 139). -/
def service_prev_defense_delta (snap : DeltaMap) (name : String) : Option ℚ :=
  (dictGet snap name).bind DeltaRecord.defense_delta

/-- The attack/defense delta-drop test of bot.py lines 131-134 / 140-143:
both deltas present, previous delta nonzero, current below previous, and
`drop_percentage = abs(delta - prev_delta) / abs(prev_delta)` at least the
percentage threshold while `abs(prev_delta)` is at least the minimum-score
threshold. -/
def delta_drop_alert (cfg : Config) (delta prev_delta : Option ℚ) : Bool :=
  match delta, prev_delta with
  | some d, some pd =>
    if pd = 0 then false
    else if d < pd then
      let drop_percentage := |d - pd| / |pd|
      decide (drop_percentage ≥ cfg.drop_percentage_threshold) &&
        decide (|pd| ≥ cfg.min_score_threshold)
    else false
  | _, _ => false

/-- The checker-status regression test of bot.py line 151: previous status
`SUCCESS` or `RECOVERING`, current status `OFFLINE` or `MUMBLE`. -/
def checker_regression (prev curr : Option String) : Bool :=
  (prev == some "SUCCESS" || prev == some "RECOVERING") &&
    (curr == some "OFFLINE" || curr == some "MUMBLE")

/-- bot.py lines 148-153: the checker alert only fires for a service whose
name is already a key of `last_service_states`. -/
def checkerFlag (ls : StateMap) (e : String × ServiceInfo) : Bool :=
  match dictGet ls e.1 with
  | some prev_state => checker_regression prev_state.checker e.2.checker
  | none => false

/-- The record written to `prev_deltas[name]` at bot.py lines 158-161. -/
def deltaRecordOf (ls : StateMap) (e : String × ServiceInfo) : DeltaRecord :=
  ⟨service_attack_delta ls e, service_defense_delta ls e⟩

/-- The accumulators threaded through the per-service loop of bot.py
lines 115-161: the `prev_deltas` dict being updated and the three issue
lists initialised at lines 106-108. -/
structure LoopAcc where
  prev_deltas : DeltaMap
  faulty_services : List String
  attack_issue_services : List String
  defense_issue_services : List String
  deriving Repr, DecidableEq

/-- One iteration of the `for service_name, service_info in
current_team_services.items():` loop (bot.py lines 115-161), reading prior
scores and checker status from `last_service_states` (`ls`), previous
deltas from the snapshot taken at line 113-114 (`snap`), and writing this
service's fresh `DeltaRecord` into the running `prev_deltas`. -/
def process_service (cfg : Config) (ls : StateMap) (snap : DeltaMap)
    (acc : LoopAcc) (e : String × ServiceInfo) : LoopAcc :=
  { prev_deltas := dictSet acc.prev_deltas e.1 (deltaRecordOf ls e)
    faulty_services :=
      acc.faulty_services ++ (if checkerFlag ls e then [e.1] else [])
    attack_issue_services :=
      acc.attack_issue_services ++
        (if delta_drop_alert cfg (service_attack_delta ls e)
            (service_prev_attack_delta snap e.1) then [e.1] else [])
    defense_issue_services :=
      acc.defense_issue_services ++
        (if delta_drop_alert cfg (service_defense_delta ls e)
            (service_prev_defense_delta snap e.1) then [e.1] else []) }

/-- The whole per-service loop of a tick that advances: the snapshot passed
for previous-delta lookups is `s.prev_deltas` exactly as copied at bot.py
lines 113-114, before any per-service overwrite. -/
def run_services_loop (cfg : Config) (s : BotState) (raw : RawServices) : LoopAcc :=
  raw.foldl (process_service cfg s.last_service_states s.prev_deltas)
    ⟨s.prev_deltas, [], [], []⟩

/-- Two-decimal rounding `floor(q * 100 + 1/2)` underlying the
`"%.2f"`-style formatting of the alert messages (exact on all values that
are whole multiples of `0.01`, which covers every formatted value proved
about here). -/
def centi (q : ℚ) : Int :=
  let r := q * 100 + 1 / 2
  r.num.fdiv r.den

/-- Python `f"{q:.2f}"` on values exactly representable in hundredths. -/
def fmt2 (q : ℚ) : String :=
  let c := centi q
  let sign := if c < 0 then "-" else ""
  let n := c.natAbs
  let fracPart := n % 100
  let fracStr := if fracPart < 10 then "0" ++ toString fracPart else toString fracPart
  sign ++ toString (n / 100) ++ "." ++ fracStr

/-- Python `f"{q:+.2f}"` on values exactly representable in hundredths. -/
def signedFmt2 (q : ℚ) : String :=
  if centi q < 0 then fmt2 q else "+" ++ fmt2 q

/-- One line of the service-down alert (bot.py lines 186-188):
`current_team_services[name].get("checker", "OFFLINE")`, classified as
`offline` exactly when it equals `"OFFLINE"`, else `mumble`. -/
def down_line (raw : RawServices) (name : String) : String :=
  let current_status := (((dictGet raw name).getD ⟨none, none⟩).checker).getD "OFFLINE"
  let status_term := if current_status = "OFFLINE" then "offline" else "mumble"
  "`" ++ name ++ "` is `" ++ status_term ++ "`"

/-- The message lines contributed by one name of `attack_issue_services`
(bot.py lines 196-207): the previous delta is re-read from the snapshot,
the current delta recomputed from `last_service_states` and the payload,
and the line only emitted when both are present; `percent_change` is `0`
unless the previous delta is nonzero. -/
def attack_issue_lines (snap : DeltaMap) (ls : StateMap) (raw : RawServices)
    (name : String) : List String :=
  let previous_delta := service_prev_attack_delta snap name
  let prev_attack_score := (dictGet ls name).map ServiceState.attack
  let current_attack_score := ((dictGet raw name).getD ⟨none, none⟩).attackScore
  let current_delta := prev_attack_score.map (fun p => current_attack_score - p)
  match previous_delta, current_delta with
  | some pd, some cd =>
    let percent_change := if pd = 0 then 0 else ((cd - pd) / |pd|) * 100
    ["`" ++ name ++ "` has `ATTACK` issue\n-# " ++ fmt2 |percent_change| ++
      "% change (" ++ signedFmt2 pd ++ "->" ++ signedFmt2 cd ++ ")"]
  | _, _ => []

/-- Defense analogue of `attack_issue_lines` (bot.py lines 208-219). -/
def defense_issue_lines (snap : DeltaMap) (ls : StateMap) (raw : RawServices)
    (name : String) : List String :=
  let previous_delta := service_prev_defense_delta snap name
  let prev_defense_score := (dictGet ls name).map ServiceState.defense
  let current_defense_score := ((dictGet raw name).getD ⟨none, none⟩).defenseScore
  let current_delta := prev_defense_score.map (fun p => current_defense_score - p)
  match previous_delta, current_delta with
  | some pd, some cd =>
    let percent_change := if pd = 0 then 0 else ((cd - pd) / |pd|) * 100
    ["`" ++ name ++ "` has `DEFENSE` issue\n-# " ++ fmt2 |percent_change| ++
      "% change (" ++ signedFmt2 pd ++ "->" ++ signedFmt2 cd ++ ")"]
  | _, _ => []

/-- The repeated-poll branch's rebuild of `current_service_states` from the
raw payload (bot.py lines 165-173). -/
def stateOf (info : ServiceInfo) : ServiceState :=
  ⟨info.checker, info.attackScore, info.defenseScore⟩

/-- Runs `current_service_states[service_name] = {...}` over the payload in
iteration order, starting from the empty dict of bot.py line 104. -/
def build_service_states (raw : RawServices) : StateMap :=
  raw.foldl (fun m e => dictSet m e.1 (stateOf e.2)) []

/-- One full iteration of the monitor loop body (bot.py lines 91-228) after
a successful fetch, given the extracted tick id `CurrTick = tick` and inner
payload `current_team_services = raw`.  An empty payload short-circuits at
line 100-103 with no state change and no message.  On a tick change the
per-service loop runs, `last_tick` is set, alerts are assembled (down
message first, then the combined attack/defense message), and line 225
stores `current_service_states` — which the tick-change branch never
populated, so the stored mapping is the empty dict from line 104.  On a
repeated poll no alert lists are filled and line 225 stores the states
rebuilt from the payload. -/
def monitor_tick (cfg : Config) (s : BotState) (tick : String)
    (raw : RawServices) : BotState × List String :=
  if raw.isEmpty then (s, [])
  else if s.last_tick ≠ some tick then
    let acc := run_services_loop cfg s raw
    let down_msgs := acc.faulty_services.map (down_line raw)
    let msgs1 :=
      if acc.faulty_services.isEmpty then []
      else [String.intercalate "\n" down_msgs ++ "\n@everyone"]
    let atk_msgs := acc.attack_issue_services.flatMap
      (attack_issue_lines s.prev_deltas s.last_service_states raw)
    let def_msgs := acc.defense_issue_services.flatMap
      (defense_issue_lines s.prev_deltas s.last_service_states raw)
    let msgs2 :=
      if (atk_msgs ++ def_msgs).isEmpty then []
      else [String.intercalate "\n" (atk_msgs ++ def_msgs) ++ "\n@everyone"]
    ({ last_service_states := []
       prev_deltas := acc.prev_deltas
       last_tick := some tick }, msgs1 ++ msgs2)
  else
    ({ last_service_states := build_service_states raw
       prev_deltas := s.prev_deltas
       last_tick := s.last_tick }, [])

/-- A whole run of the monitor from process start: fold `monitor_tick` over
the successive fetched payloads, collecting every message sent. -/
def monitor_run (cfg : Config) (polls : List (String × RawServices)) :
    BotState × List String :=
  polls.foldl
    (fun acc p =>
      let r := monitor_tick cfg acc.1 p.1 p.2
      (r.1, acc.2 ++ r.2))
    (initialState, [])

end Bot

namespace Bot

/-! ### Characterisation of the per-service loop -/

/-- The names flagged at bot.py line 152, in payload order. -/
def faulty_list (ls : StateMap) (raw : RawServices) : List String :=
  (raw.filter (checkerFlag ls)).map Prod.fst

/-- The names flagged at bot.py line 135, in payload order. -/
def attack_issues (cfg : Config) (ls : StateMap) (snap : DeltaMap)
    (raw : RawServices) : List String :=
  (raw.filter (fun e => delta_drop_alert cfg (service_attack_delta ls e)
    (service_prev_attack_delta snap e.1))).map Prod.fst

/-- The names flagged at bot.py line 144, in payload order. -/
def defense_issues (cfg : Config) (ls : StateMap) (snap : DeltaMap)
    (raw : RawServices) : List String :=
  (raw.filter (fun e => delta_drop_alert cfg (service_defense_delta ls e)
    (service_prev_defense_delta snap e.1))).map Prod.fst

/-- The cumulative effect on `prev_deltas` of the per-service writes at
bot.py lines 158-161. -/
def update_deltas (ls : StateMap) (raw : RawServices) (m : DeltaMap) : DeltaMap :=
  raw.foldl (fun m e => dictSet m e.1 (deltaRecordOf ls e)) m

/-! ### Concrete scenarios used by witnesses, counterexamples and evaluations -/

/-- A one-service payload with attack score 1 and defense score 2. -/
def c1_raw : RawServices := [("svc", ⟨some "SUCCESS", some ⟨some 1, some 2⟩⟩)]

/-- The state reached after processing tick `t1` with payload `c1_raw`. -/
def c2_s : BotState := (monitor_tick defaultConfig initialState "t1" c1_raw).1

/-- A differing payload for a repeated poll of the same tick. -/
def c2_raw : RawServices := [("A", ⟨some "OFFLINE", some ⟨some 9, some 9⟩⟩)]

/-- A state with a prior score of 0 and a stored previous delta of 20 for
service `A` in both components. -/
def c3_s : BotState :=
  ⟨[("A", ⟨some "SUCCESS", 0, 0⟩)], [("A", ⟨some 20, some 20⟩)], some "t"⟩

/-- A payload entry giving current attack delta 5 and defense delta 30
against the prior scores of `c3_s`. -/
def c3_e : String × ServiceInfo := ("A", ⟨some "SUCCESS", some ⟨some 5, some 30⟩⟩)

def c3_raw : RawServices := [c3_e]

/-- A state whose stored previous deltas for `A` are exactly zero. -/
def c4_s : BotState :=
  ⟨[("A", ⟨some "SUCCESS", 0, 0⟩)], [("A", ⟨some 0, some 0⟩)], some "t"⟩

def c4_raw : RawServices := [("A", ⟨some "SUCCESS", some ⟨some 50, some 50⟩⟩)]

/-- A fresh-start state already holding a prior score for `A`. -/
def c5_s0 : BotState := ⟨[("A", ⟨some "SUCCESS", 3, 4⟩)], [], none⟩

/-- A payload producing attack delta 7 and defense delta 0 for `A`. -/
def c5_raw1 : RawServices := [("A", ⟨some "SUCCESS", some ⟨some 10, some 4⟩⟩)]

/-- A state in which `A` was last seen OFFLINE. -/
def c6_s : BotState := ⟨[("A", ⟨some "OFFLINE", 0, 0⟩)], [], some "t0"⟩

/-- A payload in which `A` is currently OFFLINE as well. -/
def c6_e : String × ServiceInfo := ("A", ⟨some "OFFLINE", some ⟨some 0, some 0⟩⟩)

def c6_raw : RawServices := [c6_e]

/-- A state with previous attack delta 20 and prior attack score 100 for
`svc`. -/
def c7_s : BotState :=
  ⟨[("svc", ⟨some "SUCCESS", 100, 0⟩)], [("svc", ⟨some 20, none⟩)], some "t2"⟩

/-- A payload making the current attack delta of `svc` equal to 5. -/
def c7_raw : RawServices := [("svc", ⟨some "SUCCESS", some ⟨some 105, some 0⟩⟩)]

/-- Two successive ticks where service `A` disappears after the first. -/
def c8_polls : List (String × RawServices) :=
  [("t1", [("A", ⟨some "SUCCESS", some ⟨some 1, some 2⟩⟩)]),
   ("t2", [("B", ⟨some "SUCCESS", some ⟨some 3, some 4⟩⟩)])]

/-- Two distinct ticks observing the same service twice. -/
def c9_polls : List (String × RawServices) :=
  [("t1", [("A", ⟨some "SUCCESS", some ⟨some 1, some 2⟩⟩)]),
   ("t2", [("A", ⟨some "SUCCESS", some ⟨some 3, some 4⟩⟩)])]

/-- A state holding a delta record for `B`, which the next payload omits. -/
def c10_s : BotState := ⟨[], [("B", ⟨some 1, some 2⟩)], some "t0"⟩

def c10_raw : RawServices := [("A", ⟨some "SUCCESS", some ⟨some 1, some 1⟩⟩)]

/-! ### Dictionary and loop lemmas -/

theorem dictGet_dictSet_self {β : Type} (m : List (String × β)) (k : String) (v : β) :
    dictGet (dictSet m k v) k = some v := by
  induction m with
  | nil => simp [dictGet, dictSet]
  | cons a rest ih =>
    obtain ⟨k', v'⟩ := a
    by_cases h : k' = k
    · simp [dictSet, h, dictGet]
    · simp [dictSet, h, dictGet, ih]

theorem dictGet_dictSet_ne {β : Type} (m : List (String × β)) (k k' : String) (v : β)
    (h : k' ≠ k) : dictGet (dictSet m k v) k' = dictGet m k' := by
  induction m with
  | nil => simp [dictGet, dictSet, Ne.symm h]
  | cons a rest ih =>
    obtain ⟨k'', v''⟩ := a
    by_cases h2 : k'' = k
    · subst h2
      simp [dictSet, dictGet, Ne.symm h]
    · by_cases h3 : k'' = k'
      · simp [dictSet, h2, dictGet, h3, h]
      · simp [dictSet, h2, dictGet, h3, ih]

theorem dictGet_foldl_dictSet_not_mem {α β : Type} (f : String × α → β)
    (raw : List (String × α)) (m0 : List (String × β)) (name : String)
    (h : name ∉ raw.map Prod.fst) :
    dictGet (raw.foldl (fun m e => dictSet m e.1 (f e)) m0) name = dictGet m0 name := by
  induction raw generalizing m0 with
  | nil => rfl
  | cons e rest ih =>
    simp only [List.map_cons, List.mem_cons] at h
    push_neg at h
    rw [List.foldl_cons, ih _ h.2, dictGet_dictSet_ne _ _ _ _ h.1]

theorem dictGet_foldl_dictSet_mem {α β : Type} (f : String × α → β)
    (raw : List (String × α)) (m0 : List (String × β)) (name : String) (x : α)
    (hnd : (raw.map Prod.fst).Nodup) (hm : (name, x) ∈ raw) :
    dictGet (raw.foldl (fun m e => dictSet m e.1 (f e)) m0) name = some (f (name, x)) := by
  induction raw generalizing m0 with
  | nil => cases hm
  | cons e rest ih =>
    simp only [List.map_cons, List.nodup_cons] at hnd
    rcases List.mem_cons.mp hm with heq | hmem
    · rw [List.foldl_cons, ← heq]
      rw [dictGet_foldl_dictSet_not_mem]
      · exact dictGet_dictSet_self _ _ _
      · rw [← heq] at hnd
        exact hnd.1
    · exact ih _ hnd.2 hmem

theorem mem_eq_of_keys_nodup {α : Type} {raw : List (String × α)}
    (hnd : (raw.map Prod.fst).Nodup) {e f : String × α}
    (he : e ∈ raw) (hf : f ∈ raw) (hk : e.1 = f.1) : e = f := by
  induction raw with
  | nil => cases he
  | cons a rest ih =>
    simp only [List.map_cons, List.nodup_cons] at hnd
    rcases List.mem_cons.mp he with rfl | he' <;> rcases List.mem_cons.mp hf with hf2 | hf'
    · rw [hf2]
    · have : e.1 ∈ rest.map Prod.fst := hk ▸ List.mem_map_of_mem Prod.fst hf'
      exact absurd this hnd.1
    · have : f.1 ∈ rest.map Prod.fst := hk ▸ List.mem_map_of_mem Prod.fst he'
      rw [← hf2] at hnd
      exact absurd this hnd.1
    · exact ih hnd.2 he' hf'

theorem dictGet_eq_some_of_mem {α : Type} {raw : List (String × α)} {name : String} {x : α}
    (hnd : (raw.map Prod.fst).Nodup) (hm : (name, x) ∈ raw) :
    dictGet raw name = some x := by
  induction raw with
  | nil => cases hm
  | cons e rest ih =>
    simp only [List.map_cons, List.nodup_cons] at hnd
    rcases List.mem_cons.mp hm with heq | hmem
    · rw [← heq]
      simp [dictGet]
    · have hmk : name ∈ rest.map Prod.fst := List.mem_map_of_mem Prod.fst hmem
      have hne : ¬ e.1 = name := fun h => hnd.1 (h.symm ▸ hmk)
      simp [dictGet, hne, ih hnd.2 hmem]

theorem foldl_process_service_eq (cfg : Config) (ls : StateMap) (snap : DeltaMap)
    (raw : RawServices) (acc : LoopAcc) :
    raw.foldl (process_service cfg ls snap) acc =
      ⟨update_deltas ls raw acc.prev_deltas,
       acc.faulty_services ++ faulty_list ls raw,
       acc.attack_issue_services ++ attack_issues cfg ls snap raw,
       acc.defense_issue_services ++ defense_issues cfg ls snap raw⟩ := by
  induction raw generalizing acc with
  | nil => simp [update_deltas, faulty_list, attack_issues, defense_issues]
  | cons e rest ih =>
    rw [List.foldl_cons, ih]
    simp only [process_service, update_deltas, faulty_list, attack_issues,
      defense_issues, List.filter_cons, List.foldl_cons, LoopAcc.mk.injEq]
    refine ⟨trivial, ?_, ?_, ?_⟩
    · cases hc : checkerFlag ls e <;> simp [hc, List.append_assoc]
    · cases hc : delta_drop_alert cfg (service_attack_delta ls e)
        (service_prev_attack_delta snap e.1) <;> simp [hc, List.append_assoc]
    · cases hc : delta_drop_alert cfg (service_defense_delta ls e)
        (service_prev_defense_delta snap e.1) <;> simp [hc, List.append_assoc]

theorem run_services_loop_eq (cfg : Config) (s : BotState) (raw : RawServices) :
    run_services_loop cfg s raw =
      ⟨update_deltas s.last_service_states raw s.prev_deltas,
       faulty_list s.last_service_states raw,
       attack_issues cfg s.last_service_states s.prev_deltas raw,
       defense_issues cfg s.last_service_states s.prev_deltas raw⟩ := by
  rw [run_services_loop, foldl_process_service_eq]
  simp

theorem mem_filter_keys_iff {α : Type} (p : String × α → Bool) (raw : List (String × α))
    (e : String × α) (hnd : (raw.map Prod.fst).Nodup) (he : e ∈ raw) :
    e.1 ∈ (raw.filter p).map Prod.fst ↔ p e = true := by
  constructor
  · intro h
    obtain ⟨f, hf, hfe⟩ := List.mem_map.mp h
    have hf' := List.mem_filter.mp hf
    have hef : f = e := mem_eq_of_keys_nodup hnd hf'.1 he hfe
    exact hef ▸ hf'.2
  · intro h
    exact List.mem_map_of_mem Prod.fst (List.mem_filter.mpr ⟨he, h⟩)

theorem mem_filter_keys_exists {α : Type} {p : String × α → Bool} {raw : List (String × α)}
    {name : String} (h : name ∈ (raw.filter p).map Prod.fst) :
    ∃ e, e ∈ raw ∧ e.1 = name ∧ p e = true := by
  obtain ⟨f, hf, hfe⟩ := List.mem_map.mp h
  have hf' := List.mem_filter.mp hf
  exact ⟨f, hf'.1, hfe, hf'.2⟩

theorem delta_drop_alert_eq_true_iff (cfg : Config) (ad pd : Option ℚ) :
    delta_drop_alert cfg ad pd = true ↔
      ∃ a p, ad = some a ∧ pd = some p ∧ p ≠ 0 ∧ a < p ∧
        |a - p| / |p| ≥ cfg.drop_percentage_threshold ∧
        |p| ≥ cfg.min_score_threshold := by
  cases ad with
  | none => simp [delta_drop_alert]
  | some a =>
    cases pd with
    | none => simp [delta_drop_alert]
    | some p =>
      by_cases hp : p = 0
      · subst hp
        simp [delta_drop_alert]
      · by_cases hlt : a < p
        · simp [delta_drop_alert, hp, hlt, and_assoc]
        · simp [delta_drop_alert, hp, hlt]

theorem checker_regression_eq_true_iff (prev curr : Option String) :
    checker_regression prev curr = true ↔
      (prev = some "SUCCESS" ∨ prev = some "RECOVERING") ∧
      (curr = some "OFFLINE" ∨ curr = some "MUMBLE") := by
  simp [checker_regression, Bool.and_eq_true, Bool.or_eq_true, beq_iff_eq]

theorem checkerFlag_eq_true_iff (ls : StateMap) (e : String × ServiceInfo) :
    checkerFlag ls e = true ↔
      ∃ ps, dictGet ls e.1 = some ps ∧
        checker_regression ps.checker e.2.checker = true := by
  cases h : dictGet ls e.1 <;> simp [checkerFlag, h]

end Bot

namespace Bot

/-! ### Claim theorems -/

/-- C1 (code divergence): processing a tick whose id differs from the
last-processed one stores the EMPTY mapping in `last_service_states`, not
the freshly computed per-service states — the tick-change branch of bot.py
never populates `current_service_states` (created empty at line 104)
before line 225 assigns it to `last_service_states`; only the
last-processed tick id is updated as the claim states.  The second
conjunct evaluates the freshly computed states the claim expects, and the
third shows they differ from what is stored. -/
theorem new_tick_stores_empty_state_map :
    (monitor_tick defaultConfig initialState "tick1" c1_raw).1.last_service_states = [] ∧
    build_service_states c1_raw = [("svc", ⟨some "SUCCESS", 1, 2⟩)] ∧
    (monitor_tick defaultConfig initialState "tick1" c1_raw).1.last_service_states ≠
      build_service_states c1_raw ∧
    (monitor_tick defaultConfig initialState "tick1" c1_raw).1.last_tick = some "tick1" := by
  refine ⟨by decide, by decide, by decide, by decide⟩

/-- C2 counterexample: a repeated poll of the already-processed tick `t1`
with a different payload rewrites the stored service-state mapping —
bot.py line 225 runs on repeated polls too, storing the states rebuilt at
lines 165-173 — so the claim that a repeated poll leaves the service-state
mapping unchanged is false. -/
theorem repeated_poll_rewrites_state_map :
    c2_s.last_tick = some "t1" ∧
    (monitor_tick defaultConfig c2_s "t1" c2_raw).1.last_service_states ≠
      c2_s.last_service_states := by
  refine ⟨by decide, by decide⟩

/-- C2 amended: a poll whose tick id equals the last-processed one leaves
the stored per-service deltas and the last-processed tick id unchanged and
emits no alert message, but the stored service-state mapping is rebuilt
from the repeated poll's raw payload (when the payload is nonempty), so it
can change when the payload differs. -/
theorem repeated_poll_only_rebuilds_state_map (cfg : Config) (s : BotState)
    (tick : String) (raw : RawServices) (h : s.last_tick = some tick) :
    (monitor_tick cfg s tick raw).1.prev_deltas = s.prev_deltas ∧
    (monitor_tick cfg s tick raw).1.last_tick = s.last_tick ∧
    (monitor_tick cfg s tick raw).2 = [] ∧
    (monitor_tick cfg s tick raw).1.last_service_states =
      (if raw.isEmpty then s.last_service_states else build_service_states raw) := by
  by_cases hr : raw.isEmpty
  · simp [monitor_tick, hr]
  · simp [monitor_tick, hr, h]

/-- Witness for the amended C2 at a concrete repeated poll. -/
theorem repeated_poll_only_rebuilds_state_map_witness :
    c2_s.last_tick = some "t1" ∧
    ((monitor_tick defaultConfig c2_s "t1" c2_raw).1.prev_deltas = c2_s.prev_deltas ∧
     (monitor_tick defaultConfig c2_s "t1" c2_raw).1.last_tick = c2_s.last_tick ∧
     (monitor_tick defaultConfig c2_s "t1" c2_raw).2 = [] ∧
     (monitor_tick defaultConfig c2_s "t1" c2_raw).1.last_service_states =
       (if c2_raw.isEmpty then c2_s.last_service_states else build_service_states c2_raw)) :=
  ⟨by decide,
   repeated_poll_only_rebuilds_state_map defaultConfig c2_s "t1" c2_raw (by decide)⟩

/-- C3: for every service of the processed payload (service names
distinct), an attack (resp. defense) score-regression alert is flagged if
and only if the current-tick delta and the previous-tick delta both exist,
the previous delta is nonzero, the current delta is strictly below the
previous one, the drop percentage `|cd - pd| / |pd|` is at least the
configured percentage threshold, and `|pd|` is at least the configured
minimum absolute threshold. -/
theorem attack_defense_alert_iff (cfg : Config) (s : BotState) (raw : RawServices)
    (e : String × ServiceInfo) (hnd : (raw.map Prod.fst).Nodup) (he : e ∈ raw) :
    (e.1 ∈ (run_services_loop cfg s raw).attack_issue_services ↔
      ∃ cd pd, service_attack_delta s.last_service_states e = some cd ∧
        service_prev_attack_delta s.prev_deltas e.1 = some pd ∧ pd ≠ 0 ∧ cd < pd ∧
        |cd - pd| / |pd| ≥ cfg.drop_percentage_threshold ∧
        |pd| ≥ cfg.min_score_threshold) ∧
    (e.1 ∈ (run_services_loop cfg s raw).defense_issue_services ↔
      ∃ cd pd, service_defense_delta s.last_service_states e = some cd ∧
        service_prev_defense_delta s.prev_deltas e.1 = some pd ∧ pd ≠ 0 ∧ cd < pd ∧
        |cd - pd| / |pd| ≥ cfg.drop_percentage_threshold ∧
        |pd| ≥ cfg.min_score_threshold) := by
  constructor
  · simp only [run_services_loop_eq, attack_issues]
    rw [mem_filter_keys_iff _ raw e hnd he]
    exact delta_drop_alert_eq_true_iff cfg _ _
  · simp only [run_services_loop_eq, defense_issues]
    rw [mem_filter_keys_iff _ raw e hnd he]
    exact delta_drop_alert_eq_true_iff cfg _ _

/-- Witness for C3: previous attack delta 20, current attack delta 5 flags
an attack issue; previous defense delta 20, current defense delta 30 flags
nothing. -/
theorem attack_defense_alert_iff_witness :
    ((c3_raw.map Prod.fst).Nodup ∧ c3_e ∈ c3_raw) ∧
    ((c3_e.1 ∈ (run_services_loop defaultConfig c3_s c3_raw).attack_issue_services ↔
      ∃ cd pd, service_attack_delta c3_s.last_service_states c3_e = some cd ∧
        service_prev_attack_delta c3_s.prev_deltas c3_e.1 = some pd ∧ pd ≠ 0 ∧ cd < pd ∧
        |cd - pd| / |pd| ≥ defaultConfig.drop_percentage_threshold ∧
        |pd| ≥ defaultConfig.min_score_threshold) ∧
     (c3_e.1 ∈ (run_services_loop defaultConfig c3_s c3_raw).defense_issue_services ↔
      ∃ cd pd, service_defense_delta c3_s.last_service_states c3_e = some cd ∧
        service_prev_defense_delta c3_s.prev_deltas c3_e.1 = some pd ∧ pd ≠ 0 ∧ cd < pd ∧
        |cd - pd| / |pd| ≥ defaultConfig.drop_percentage_threshold ∧
        |pd| ≥ defaultConfig.min_score_threshold)) :=
  ⟨⟨by decide, by decide⟩,
   attack_defense_alert_iff defaultConfig c3_s c3_raw c3_e (by decide) (by decide)⟩

/-- C4: a service whose stored previous deltas are exactly zero is never
flagged for a score-regression alert, whatever the current deltas; and the
delta-drop test rejects a zero previous delta outright — its division sits
behind the `prev_delta != 0` guard of bot.py lines 131/140, so the drop
percentage is never formed with a zero divisor. -/
theorem zero_prev_delta_no_alert (cfg : Config) (s : BotState) (raw : RawServices)
    (name : String)
    (ha : service_prev_attack_delta s.prev_deltas name = some 0)
    (hd : service_prev_defense_delta s.prev_deltas name = some 0) :
    name ∉ (run_services_loop cfg s raw).attack_issue_services ∧
    name ∉ (run_services_loop cfg s raw).defense_issue_services ∧
    (∀ d : Option ℚ, delta_drop_alert cfg d (some 0) = false) := by
  have hzero : ∀ d : Option ℚ, delta_drop_alert cfg d (some 0) = false := by
    intro d
    cases d <;> simp [delta_drop_alert]
  refine ⟨?_, ?_, hzero⟩
  · simp only [run_services_loop_eq, attack_issues]
    intro hmem
    obtain ⟨e, _, hek, hp⟩ := mem_filter_keys_exists hmem
    rw [hek, ha, hzero] at hp
    exact Bool.false_ne_true hp
  · simp only [run_services_loop_eq, defense_issues]
    intro hmem
    obtain ⟨e, _, hek, hp⟩ := mem_filter_keys_exists hmem
    rw [hek, hd, hzero] at hp
    exact Bool.false_ne_true hp

/-- Witness for C4 at stored zero deltas and large current deltas. -/
theorem zero_prev_delta_no_alert_witness :
    (service_prev_attack_delta c4_s.prev_deltas "A" = some 0 ∧
     service_prev_defense_delta c4_s.prev_deltas "A" = some 0) ∧
    ("A" ∉ (run_services_loop defaultConfig c4_s c4_raw).attack_issue_services ∧
     "A" ∉ (run_services_loop defaultConfig c4_s c4_raw).defense_issue_services ∧
     (∀ d : Option ℚ, delta_drop_alert defaultConfig d (some 0) = false)) :=
  ⟨⟨by decide, by decide⟩,
   zero_prev_delta_no_alert defaultConfig c4_s c4_raw "A" (by decide) (by decide)⟩

/-- C5: after a tick `t1` is processed, the stored previous delta that the
next tick's regression comparison will consult for a service present in
`t1`'s payload is exactly the delta computed during `t1` from the scores
prior to `t1` — the comparison always reads the snapshot taken before the
current tick's overwrites (bot.py lines 113-114), never a delta computed
during the tick being evaluated. -/
theorem prev_delta_is_last_ticks_delta (cfg : Config) (s0 : BotState) (t1 : String)
    (raw1 : RawServices) (name : String) (info1 : ServiceInfo)
    (hnd : (raw1.map Prod.fst).Nodup) (hm : (name, info1) ∈ raw1)
    (ht : s0.last_tick ≠ some t1) :
    service_prev_attack_delta (monitor_tick cfg s0 t1 raw1).1.prev_deltas name =
      service_attack_delta s0.last_service_states (name, info1) ∧
    service_prev_defense_delta (monitor_tick cfg s0 t1 raw1).1.prev_deltas name =
      service_defense_delta s0.last_service_states (name, info1) := by
  have hne : ¬ raw1.isEmpty := by
    cases raw1 with
    | nil => cases hm
    | cons a t => simp
  have hpd : (monitor_tick cfg s0 t1 raw1).1.prev_deltas =
      update_deltas s0.last_service_states raw1 s0.prev_deltas := by
    simp [monitor_tick, hne, ht, run_services_loop_eq]
  have hget := dictGet_foldl_dictSet_mem (deltaRecordOf s0.last_service_states)
    raw1 s0.prev_deltas name info1 hnd hm
  constructor
  · rw [hpd]
    simp only [service_prev_attack_delta, update_deltas]
    rw [hget]
    rfl
  · rw [hpd]
    simp only [service_prev_defense_delta, update_deltas]
    rw [hget]
    rfl

/-- Witness for C5: after processing `t1`, the stored previous deltas of
`A` are the ones computed at `t1` (attack 7, defense 0). -/
theorem prev_delta_is_last_ticks_delta_witness :
    ((c5_raw1.map Prod.fst).Nodup ∧ ("A", ⟨some "SUCCESS", some ⟨some 10, some 4⟩⟩) ∈ c5_raw1 ∧
      c5_s0.last_tick ≠ some "t1") ∧
    (service_prev_attack_delta (monitor_tick defaultConfig c5_s0 "t1" c5_raw1).1.prev_deltas "A" =
      service_attack_delta c5_s0.last_service_states ("A", ⟨some "SUCCESS", some ⟨some 10, some 4⟩⟩) ∧
     service_prev_defense_delta (monitor_tick defaultConfig c5_s0 "t1" c5_raw1).1.prev_deltas "A" =
      service_defense_delta c5_s0.last_service_states ("A", ⟨some "SUCCESS", some ⟨some 10, some 4⟩⟩)) :=
  ⟨⟨by decide, by decide, by decide⟩,
   prev_delta_is_last_ticks_delta defaultConfig c5_s0 "t1" c5_raw1 "A"
     ⟨some "SUCCESS", some ⟨some 10, some 4⟩⟩ (by decide) (by decide) (by decide)⟩

end Bot

namespace Bot

/-- C6: for every service of the processed payload (service names
distinct), a checker regression is flagged if and only if a prior state is
stored whose checker status is SUCCESS or RECOVERING while the current
checker status is OFFLINE or MUMBLE; the down-alert line reads
`offline` when the current status is OFFLINE and `mumble` when it is
MUMBLE.  An OFFLINE-to-OFFLINE transition falsifies the right-hand side,
so it flags nothing (the witness instantiates exactly that case). -/
theorem checker_alert_iff_and_label (cfg : Config) (s : BotState) (raw : RawServices)
    (e : String × ServiceInfo) (hnd : (raw.map Prod.fst).Nodup) (he : e ∈ raw) :
    (e.1 ∈ (run_services_loop cfg s raw).faulty_services ↔
      ∃ ps, dictGet s.last_service_states e.1 = some ps ∧
        (ps.checker = some "SUCCESS" ∨ ps.checker = some "RECOVERING") ∧
        (e.2.checker = some "OFFLINE" ∨ e.2.checker = some "MUMBLE")) ∧
    (e.2.checker = some "OFFLINE" →
      down_line raw e.1 = "`" ++ e.1 ++ "` is `" ++ "offline" ++ "`") ∧
    (e.2.checker = some "MUMBLE" →
      down_line raw e.1 = "`" ++ e.1 ++ "` is `" ++ "mumble" ++ "`") := by
  have hre : dictGet raw e.1 = some e.2 := dictGet_eq_some_of_mem hnd he
  refine ⟨?_, ?_, ?_⟩
  · simp only [run_services_loop_eq, faulty_list]
    rw [mem_filter_keys_iff _ raw e hnd he, checkerFlag_eq_true_iff]
    simp only [checker_regression_eq_true_iff]
  · intro hc
    simp [down_line, hre, hc]
  · intro hc
    simp [down_line, hre, hc]

/-- Witness for C6 at an OFFLINE-to-OFFLINE transition (which flags
nothing, since the prior status is not SUCCESS or RECOVERING). -/
theorem checker_alert_iff_and_label_witness :
    ((c6_raw.map Prod.fst).Nodup ∧ c6_e ∈ c6_raw) ∧
    ((c6_e.1 ∈ (run_services_loop defaultConfig c6_s c6_raw).faulty_services ↔
      ∃ ps, dictGet c6_s.last_service_states c6_e.1 = some ps ∧
        (ps.checker = some "SUCCESS" ∨ ps.checker = some "RECOVERING") ∧
        (c6_e.2.checker = some "OFFLINE" ∨ c6_e.2.checker = some "MUMBLE")) ∧
     (c6_e.2.checker = some "OFFLINE" →
      down_line c6_raw c6_e.1 = "`" ++ c6_e.1 ++ "` is `" ++ "offline" ++ "`") ∧
     (c6_e.2.checker = some "MUMBLE" →
      down_line c6_raw c6_e.1 = "`" ++ c6_e.1 ++ "` is `" ++ "mumble" ++ "`")) :=
  ⟨⟨by decide, by decide⟩,
   checker_alert_iff_and_label defaultConfig c6_s c6_raw c6_e (by decide) (by decide)⟩

section

attribute [local semireducible] Rat.add Rat.sub Rat.mul Rat.inv

/-- C7: with previous attack delta 20 and current attack delta 5 under the
default thresholds (0.5 and 10.0), a regression alert fires whose single
message contains both the signed delta transition `+20.00->+5.00` and the
percent change `75.00%` (exhibited by explicit substring decompositions). -/
theorem regression_alert_message_example :
    (monitor_tick defaultConfig c7_s "t3" c7_raw).2 =
      ["`svc` has `ATTACK` issue\n-# 75.00% change (+20.00->+5.00)\n@everyone"] ∧
    (∃ a b : String,
      "`svc` has `ATTACK` issue\n-# 75.00% change (+20.00->+5.00)\n@everyone" =
        a ++ "+20.00->+5.00" ++ b) ∧
    (∃ a b : String,
      "`svc` has `ATTACK` issue\n-# 75.00% change (+20.00->+5.00)\n@everyone" =
        a ++ "75.00%" ++ b) :=
  ⟨by decide,
   ⟨"`svc` has `ATTACK` issue\n-# 75.00% change (", ")\n@everyone", by decide⟩,
   ⟨"`svc` has `ATTACK` issue\n-# ", " change (+20.00->+5.00)\n@everyone", by decide⟩⟩

end

/-- C8 (code divergence): a service seen at tick `t1` but absent from tick
`t2`'s payload has NO entry left in the stored service-state mapping after
`t2` — indeed the mapping is empty after every processed tick, because the
tick-change branch never populates `current_service_states` before bot.py
line 225 stores it.  The claim that the prior entry is retained fails. -/
theorem absent_service_state_not_retained :
    (monitor_run defaultConfig c8_polls).1.last_service_states = [] ∧
    dictGet (monitor_run defaultConfig c8_polls).1.last_service_states "A" = none := by
  refine ⟨by decide, by decide⟩

/-- C9: the comparison pipeline is deterministic in the fetched payloads —
replaying the same sequence of polls (with pairwise-distinct tick ids)
from the fresh initial state yields the identical message sequence. -/
theorem replay_same_messages (cfg : Config)
    (polls1 polls2 : List (String × RawServices))
    (hdist : (polls1.map Prod.fst).Nodup) (heq : polls1 = polls2) :
    (monitor_run cfg polls1).2 = (monitor_run cfg polls2).2 := by
  rw [heq]

/-- Witness for C9 on a concrete two-tick replay. -/
theorem replay_same_messages_witness :
    ((c9_polls.map Prod.fst).Nodup ∧ c9_polls = c9_polls) ∧
    (monitor_run defaultConfig c9_polls).2 = (monitor_run defaultConfig c9_polls).2 :=
  ⟨⟨by decide, rfl⟩,
   replay_same_messages defaultConfig c9_polls c9_polls (by decide) rfl⟩

/-- C10: on a tick that advances to a new tick id, the delta store is only
written at the keys present in the current payload — the stored delta
record of every service name absent from the payload is unchanged. -/
theorem deltas_untouched_for_absent_services (cfg : Config) (s : BotState)
    (tick : String) (raw : RawServices) (name : String)
    (ht : s.last_tick ≠ some tick) (hnm : name ∉ raw.map Prod.fst) :
    dictGet (monitor_tick cfg s tick raw).1.prev_deltas name =
      dictGet s.prev_deltas name := by
  by_cases hr : raw.isEmpty
  · simp [monitor_tick, hr]
  · have hpd : (monitor_tick cfg s tick raw).1.prev_deltas =
        update_deltas s.last_service_states raw s.prev_deltas := by
      simp [monitor_tick, hr, ht, run_services_loop_eq]
    rw [hpd]
    simp only [update_deltas]
    exact dictGet_foldl_dictSet_not_mem _ raw s.prev_deltas name hnm

/-- Witness for C10: the delta record of `B` survives a tick whose payload
only mentions `A`. -/
theorem deltas_untouched_for_absent_services_witness :
    (c10_s.last_tick ≠ some "t1" ∧ "B" ∉ c10_raw.map Prod.fst) ∧
    dictGet (monitor_tick defaultConfig c10_s "t1" c10_raw).1.prev_deltas "B" =
      dictGet c10_s.prev_deltas "B" :=
  ⟨⟨by decide, by decide⟩,
   deltas_untouched_for_absent_services defaultConfig c10_s "t1" c10_raw "B"
     (by decide) (by decide)⟩

end Bot
